import Mathlib

/-
Shallow embedding of src/kge/distributed/parameter_client.py (dist-kge).

Rows are fixed-length vectors of 32-bit floats in the source; they are
modelled here as lists of rationals (exact arithmetic).  A store is the
row table, indexed by a natural-number key.  Stateful methods are
modelled as explicit state passing; fallible calls return Except.
-/

/-- Row: one stored vector (source: a 1-d float32 tensor of width dim). -/
abbrev Row := List ℚ

/-- Store: the row table, indexed by integer key (source: a 2-d tensor
of shape (num_keys, dim), one row per key). -/
abbrev Store := List Row

/-- Errors surfaced by client calls.  invalidKey models a key outside
the range of the table (realized as an indexing error in the
local-memory backend and as the spec's InvalidKeyError on the server
side); notImplemented models a raised NotImplementedError. -/
inductive PSErr where
  | invalidKey
  | notImplemented
  deriving DecidableEq

/-- Advanced-indexing read parameters[keys, :]: the rows at keys, in key
order (PyTorch gather; out-of-range handling is done by the callers). -/
def gather (store : Store) (keys : List ℕ) : List Row :=
  keys.map (fun k => store.getD k [])

/-- Advanced-indexing write parameters[keys, :] = rows: sequential
scatter, so a duplicated key keeps the value of its last occurrence
(PyTorch index_put with accumulate=False). -/
def index_put (store : Store) (keys : List ℕ) (rows : List Row) : Store :=
  (keys.zip rows).foldl (fun s kr => s.set kr.1 kr.2) store

/-- Elementwise addition of two rows. -/
def addRow (a b : Row) : Row := List.zipWith (fun x y => x + y) a b

/-- SharedParameterClient (source lines 296-378): operates directly on
an in-process shared table.  num_keys is len(parameters) (line 300);
dim = embedding_dim + optimizer_dim comes from KgeParameterClient
(lines 24-26); num_meta_keys comes from the configuration (line 27). -/
structure SharedParameterClient where
  parameters : Store
  num_meta_keys : ℕ
  dim : ℕ
  deriving DecidableEq

/-- Construction (KgeParameterClient lines 23-27 and
SharedParameterClient lines 297-302): dim = embedding_dim +
optimizer_dim, num_keys = len(parameters). -/
def mkSharedParameterClient (embedding_dim optimizer_dim num_meta_keys : ℕ)
    (parameters : Store) : SharedParameterClient :=
  { parameters := parameters, num_meta_keys := num_meta_keys,
    dim := embedding_dim + optimizer_dim }

/-- num_keys = len(parameters) (source line 300). -/
def SharedParameterClient.num_keys (c : SharedParameterClient) : ℕ :=
  c.parameters.length

/-- Stop meta key (source line 303): num_keys - num_meta_keys. -/
def SharedParameterClient.stop_key (c : SharedParameterClient) : ℕ :=
  c.num_keys - c.num_meta_keys

/-- Entity optimizer-step meta key (source lines 304-306). -/
def SharedParameterClient.optim_entity_step_key (c : SharedParameterClient) : ℕ :=
  c.num_keys - c.num_meta_keys + 1

/-- Relation optimizer-step meta key (source lines 307-309). -/
def SharedParameterClient.optim_relation_step_key (c : SharedParameterClient) : ℕ :=
  c.num_keys - c.num_meta_keys + 2

/-- Entity learning-rate meta key (source line 310). -/
def SharedParameterClient.entity_lr_key (c : SharedParameterClient) : ℕ :=
  c.num_keys - c.num_meta_keys + 3

/-- Relation learning-rate meta key (source line 311). -/
def SharedParameterClient.relation_lr_key (c : SharedParameterClient) : ℕ :=
  c.num_keys - c.num_meta_keys + 4

/-- SharedParameterClient.pull (source lines 325-327): pull_tensor[:, :]
= parameters[keys, :].  The value returned here is the content written
into the caller-supplied buffer; an out-of-range key raises before
anything is written. -/
def SharedParameterClient.pull (c : SharedParameterClient) (keys : List ℕ) :
    Except PSErr (List Row) :=
  if keys.all (fun k => decide (k < c.parameters.length)) then
    .ok (gather c.parameters keys)
  else
    .error .invalidKey

/-- SharedParameterClient.push (source lines 329-332): parameters[keys, :]
+= push_tensor.  PyTorch evaluates this as a gather, an addition, and a
scatter, so a duplicated key does not accumulate twice. -/
def SharedParameterClient.push (c : SharedParameterClient) (keys : List ℕ)
    (push_tensor : List Row) : Except PSErr SharedParameterClient :=
  let updated :=
    index_put c.parameters keys
      (List.zipWith addRow (gather c.parameters keys) push_tensor)
  if keys.all (fun k => decide (k < c.parameters.length)) then
    .ok { c with parameters := updated }
  else
    .error .invalidKey

/-- SharedParameterClient.set (source lines 334-336): parameters[keys, :]
= set_tensor. -/
def SharedParameterClient.set (c : SharedParameterClient) (keys : List ℕ)
    (set_tensor : List Row) : Except PSErr SharedParameterClient :=
  if keys.all (fun k => decide (k < c.parameters.length)) then
    .ok { c with parameters := index_put c.parameters keys set_tensor }
  else
    .error .invalidKey

/-- SharedParameterClient.localize (source lines 338-339): pass.  The
client is returned unchanged. -/
def SharedParameterClient.localize (c : SharedParameterClient)
    (keys : List ℕ) : SharedParameterClient := c

/-- SharedParameterClient.stop (source lines 347-350): pushes a row of
ones of shape (1, dim) to the stop key, i.e. accumulates onto it. -/
def SharedParameterClient.stop (c : SharedParameterClient) :
    Except PSErr SharedParameterClient :=
  c.push [c.stop_key] [List.replicate c.dim 1]

/-- SharedParameterClient.is_stopped (source lines 352-357): pulls the
stop row and returns true when any of its components equals 1. -/
def SharedParameterClient.is_stopped (c : SharedParameterClient) :
    Except PSErr Bool := do
  let rows ← c.pull [c.stop_key]
  pure (if (rows.getD 0 []).any (fun v => decide (v = 1)) then true else false)

/-- Modelled from the spec: the command-protocol server
(src/kge/distributed/parameter_server.py is not under src).  Per the
spec, pull reads the current rows for keys in order and fails with
InvalidKeyError when a key is outside the table. -/
def torch_server_pull (store : Store) (keys : List ℕ) :
    Except PSErr (List Row) :=
  if keys.all (fun k => decide (k < store.length)) then
    .ok (gather store keys)
  else
    .error .invalidKey

/-- Modelled from the spec: the command-protocol server
(src/kge/distributed/parameter_server.py is not under src).  Per the
spec, push adds rows elementwise to the stored values at keys and fails
with InvalidKeyError when a key is outside the table. -/
def torch_server_push (store : Store) (keys : List ℕ) (rows : List Row) :
    Except PSErr Store :=
  if keys.all (fun k => decide (k < store.length)) then
    .ok (index_put store keys (List.zipWith addRow (gather store keys) rows))
  else
    .error .invalidKey

/-- Modelled from the spec: numeric values of the command codes in
TORCH_PARAMETER_SERVER_CMDS (parameter_server.py, not under src) are
unknown; arbitrary distinct integers are used, which is all the claims
about the wire format depend on. -/
def PULL_CMD : ℤ := 0

/-- Modelled from the spec: command code for push. -/
def PUSH_CMD : ℤ := 1

/-- Modelled from the spec: command code for set. -/
def SET_CMD : ℤ := 2

/-- Modelled from the spec: command code for shutdown. -/
def SHUTDOWN_CMD : ℤ := 3

/-- Modelled from the spec: command code for step_optim. -/
def STEP_OPTIM_CMD : ℤ := 4

/-- Modelled from the spec: command code for get_step_optim. -/
def GET_OPTIM_STEP_CMD : ℤ := 5

/-- Modelled from the spec: command code for reading the entity lr. -/
def GET_ENTITY_LR_CMD : ℤ := 6

/-- Modelled from the spec: command code for reading the relation lr. -/
def GET_RELATION_LR_CMD : ℤ := 7

/-- Modelled from the spec: command code for writing the entity lr. -/
def SET_ENTITY_LR_CMD : ℤ := 8

/-- Modelled from the spec: command code for writing the relation lr. -/
def SET_RELATION_LR_CMD : ℤ := 9

/-- One message sent to the server over the point-to-point channel:
an integer tensor (headers), the key tensor, a row payload, or the
one-float learning-rate buffer. -/
inductive Msg where
  | ints : List ℤ → Msg
  | keyList : List ℕ → Msg
  | rows : Store → Msg
  | floats : List ℚ → Msg
  deriving DecidableEq

/-- Messages sent by TorchParameterClient.pull (source lines 216-219):
the header [PULL_CMD, len(keys)] followed by the keys. -/
def torch_pull_msgs (keys : List ℕ) : List Msg :=
  [Msg.ints [PULL_CMD, (keys.length : ℤ)], Msg.keyList keys]

/-- Messages sent by TorchParameterClient.push (source lines 224-228):
the header [PUSH_CMD, len(keys)], the keys, then the row payload. -/
def torch_push_msgs (keys : List ℕ) (push_tensor : Store) : List Msg :=
  [Msg.ints [PUSH_CMD, (keys.length : ℤ)], Msg.keyList keys,
   Msg.rows push_tensor]

/-- Messages sent by TorchParameterClient.set (source lines 230-234):
the header [SET_CMD, len(keys)], the keys, then the row payload. -/
def torch_set_msgs (keys : List ℕ) (set_tensor : Store) : List Msg :=
  [Msg.ints [SET_CMD, (keys.length : ℤ)], Msg.keyList keys,
   Msg.rows set_tensor]

/-- Messages sent by TorchParameterClient.shutdown (source lines
250-252): the header [SHUTDOWN_CMD, 0], nothing else. -/
def torch_shutdown_msgs : List Msg :=
  [Msg.ints [SHUTDOWN_CMD, 0]]

/-- Messages sent by TorchParameterClient.step_optim (source lines
261-269): parameter_index is 0 when group_name equals the string entity
and 1 otherwise; the header is [STEP_OPTIM_CMD, parameter_index] and no
payload follows.  The group name is never validated. -/
def torch_step_optim_msgs (group_name : String) : List Msg :=
  [Msg.ints [STEP_OPTIM_CMD, if group_name = "entity" then (0 : ℤ) else 1]]

/-- Messages sent by TorchParameterClient.get_step_optim (source lines
271-279): same header shape as step_optim, with GET_OPTIM_STEP_CMD. -/
def torch_get_step_optim_msgs (group_name : String) : List Msg :=
  [Msg.ints [GET_OPTIM_STEP_CMD, if group_name = "entity" then (0 : ℤ) else 1]]

/-- Messages sent by TorchParameterClient.get_lr (source lines 283-286):
the header [GET_{GROUP}_LR_CMD, 0].  The command code is looked up by
attribute name, so an unknown group name fails the lookup (none). -/
def torch_get_lr_msgs (group_name : String) : Option (List Msg) :=
  if group_name = "entity" then some [Msg.ints [GET_ENTITY_LR_CMD, 0]]
  else if group_name = "relation" then some [Msg.ints [GET_RELATION_LR_CMD, 0]]
  else none

/-- Messages sent by TorchParameterClient.set_lr (source lines 289-293):
the header [SET_{GROUP}_LR_CMD, 0] followed by the one-float lr buffer. -/
def torch_set_lr_msgs (group_name : String) (lr : ℚ) : Option (List Msg) :=
  if group_name = "entity" then
    some [Msg.ints [SET_ENTITY_LR_CMD, 0], Msg.floats [lr]]
  else if group_name = "relation" then
    some [Msg.ints [SET_RELATION_LR_CMD, 0], Msg.floats [lr]]
  else none

/-- Number of keys carried by the key-tensor messages of one request. -/
def numKeysSent : List Msg → ℕ
  | [] => 0
  | Msg.keyList ks :: rest => ks.length + numKeysSent rest
  | _ :: rest => numKeysSent rest

/-- Second element of the leading 2-element integer header, when the
request starts with one. -/
def headerSecond : List Msg → Option ℤ
  | Msg.ints [_, n] :: _ => some n
  | _ => none

/-- Whether a request starts with a 2-element integer header. -/
def isHeader2 : List Msg → Bool
  | Msg.ints [_, _] :: _ => true
  | _ => false

/-- TorchParameterClient (source lines 206-214): talks to one server
over point-to-point sends.  The server-side table is carried here so
round trips can be stated; num_keys is passed at construction (line
210), dim and num_meta_keys come from KgeParameterClient. -/
structure TorchParameterClient where
  serverStore : Store
  num_keys : ℕ
  num_meta_keys : ℕ
  dim : ℕ
  deriving DecidableEq

/-- Stop meta key of the torch client (source line 213). -/
def TorchParameterClient.stop_key (c : TorchParameterClient) : ℕ :=
  c.num_keys - c.num_meta_keys

instance {ε α : Type _} [DecidableEq ε] [DecidableEq α] :
    DecidableEq (Except ε α) := fun a b =>
  match a, b with
  | .error e, .error f =>
    if h : e = f then isTrue (h ▸ rfl) else isFalse (fun hh => h (by cases hh; rfl))
  | .error _, .ok _ => isFalse (fun hh => Except.noConfusion hh)
  | .ok _, .error _ => isFalse (fun hh => Except.noConfusion hh)
  | .ok x, .ok y =>
    if h : x = y then isTrue (h ▸ rfl) else isFalse (fun hh => h (by cases hh; rfl))

/-- Everything observable about one call to TorchParameterClient.pull:
the messages sent, the buffer allocated when pull_tensor is None, the
content received into the buffer, and the Python return value. -/
structure TorchPullResult where
  sent : List Msg
  allocated : Option Store
  received : Except PSErr (List Row)
  ret : Option (List Row)
  deriving DecidableEq

/-- TorchParameterClient.pull (source lines 216-222): sends the header
and the keys; when pull_tensor is None a zero buffer of shape
(len(keys), dim) is allocated (line 221); the response is received into
the buffer (line 222).  The function body has no return statement, so
the Python call returns None: ret is always none and the received rows
never reach the caller when the caller did not supply the buffer.  The
server response is modelled from the spec (parameter_server.py is not
under src). -/
def TorchParameterClient.pull (c : TorchParameterClient) (keys : List ℕ)
    (pull_tensor : Option Store) : TorchPullResult :=
  { sent := torch_pull_msgs keys
    allocated :=
      match pull_tensor with
      | none => some (List.replicate keys.length (List.replicate c.dim 0))
      | some _ => none
    received := torch_server_pull c.serverStore keys
    ret := none }

/-- TorchParameterClient.localize (source lines 236-237): pass.  No
message is sent and the client is unchanged. -/
def TorchParameterClient.localize (c : TorchParameterClient)
    (keys : List ℕ) : TorchParameterClient × List Msg := (c, [])

/-- TorchParameterClient.stop (source lines 245-248): pushes a row of
ones of shape (1, dim) to the stop key (accumulate on the server). -/
def TorchParameterClient.stop (c : TorchParameterClient) :
    Except PSErr TorchParameterClient := do
  let s ← torch_server_push c.serverStore [c.stop_key]
    [List.replicate c.dim 1]
  pure { c with serverStore := s }

/-- TorchParameterClient.is_stopped (source lines 254-259): pulls the
stop row and returns true when any of its components equals 1. -/
def TorchParameterClient.is_stopped (c : TorchParameterClient) :
    Except PSErr Bool := do
  let rows ← torch_server_pull c.serverStore [c.stop_key]
  pure (if (rows.getD 0 []).any (fun v => decide (v = 1)) then true else false)

/-- Modelled from the spec: the lapse engine (the external adaps
package) is a black box satisfying the pull contract: it reads the
current rows for keys and fails with InvalidKeyError when a key is
outside the table. -/
def lapse_engine_pull (engine : Store) (keys : List ℕ) :
    Except PSErr (List Row) :=
  if keys.all (fun k => decide (k < engine.length)) then
    .ok (gather engine keys)
  else
    .error .invalidKey

/-- Modelled from the spec: the lapse engine push adds rows elementwise
to the stored values at keys (accumulate semantics). -/
def lapse_engine_push (engine : Store) (keys : List ℕ) (rows : List Row) :
    Except PSErr Store :=
  if keys.all (fun k => decide (k < engine.length)) then
    .ok (index_put engine keys (List.zipWith addRow (gather engine keys) rows))
  else
    .error .invalidKey

/-- LapseParameterClient (source lines 99-130): wraps the external lapse
engine; key_size is the engine's row width (line 109), meta keys are
computed at construction (lines 110-118). -/
structure LapseParameterClient where
  engine : Store
  num_keys : ℕ
  num_meta_keys : ℕ
  key_size : ℕ
  deriving DecidableEq

/-- Stop meta key of the lapse client (source line 110). -/
def LapseParameterClient.stop_key (c : LapseParameterClient) : ℕ :=
  c.num_keys - c.num_meta_keys

/-- LapseParameterClient.pull (source lines 132-139): allocates a buffer
when none is given and delegates to the engine (modelled from the spec). -/
def LapseParameterClient.pull (c : LapseParameterClient) (keys : List ℕ)
    (pull_tensor : Option Store) : Except PSErr (List Row) :=
  lapse_engine_pull c.engine keys

/-- LapseParameterClient.localize (source lines 153-154): raises
NotImplementedError unconditionally. -/
def LapseParameterClient.localize (c : LapseParameterClient)
    (keys : List ℕ) : Except PSErr Unit :=
  .error .notImplemented

/-- LapseParameterClient.stop (source lines 168-171): pushes a row of
ones of shape (1, key_size) to the stop key. -/
def LapseParameterClient.stop (c : LapseParameterClient) :
    Except PSErr LapseParameterClient := do
  let s ← lapse_engine_push c.engine [c.stop_key]
    [List.replicate c.key_size 1]
  pure { c with engine := s }

/-- LapseParameterClient.is_stopped (source lines 173-178): pulls the
stop row and returns true when its first component equals 1. -/
def LapseParameterClient.is_stopped (c : LapseParameterClient) :
    Except PSErr Bool := do
  let rows ← lapse_engine_pull c.engine [c.stop_key]
  pure (if (rows.getD 0 []).headD 0 = 1 then true else false)

/-- Freshly constructed shared client over a zero-initialized table of
n rows. -/
def freshShared (n m ed od : ℕ) : SharedParameterClient :=
  mkSharedParameterClient ed od m
    (List.replicate n (List.replicate (ed + od) 0))

/-- Freshly constructed torch client whose server table holds n
zero-initialized rows. -/
def freshTorch (n m ed od : ℕ) : TorchParameterClient :=
  { serverStore := List.replicate n (List.replicate (ed + od) 0),
    num_keys := n, num_meta_keys := m, dim := ed + od }

/-- Freshly constructed lapse client whose engine holds n
zero-initialized rows of width ks. -/
def freshLapse (n m ks : ℕ) : LapseParameterClient :=
  { engine := List.replicate n (List.replicate ks 0),
    num_keys := n, num_meta_keys := m, key_size := ks }

/-- The concrete scenario of the spec: num_keys=107, num_meta_keys=5,
embedding_dim=100, optimizer_dim=0, zero-initialized table. -/
def c107 : SharedParameterClient :=
  mkSharedParameterClient 100 0 5
    (List.replicate 107 (List.replicate 100 0))

/-- Two-call sequence on the local-memory backend: set followed by pull
of the same keys. -/
def set_then_pull (c : SharedParameterClient) (keys : List ℕ)
    (rows : List Row) : Except PSErr (List Row) :=
  c.set keys rows >>= fun c1 => c1.pull keys

/-- Two-call sequence on the local-memory backend: push of rowsA then
push of rowsB on the same keys. -/
def push_then_push (c : SharedParameterClient) (keys : List ℕ)
    (rowsA rowsB : List Row) : Except PSErr SharedParameterClient :=
  c.push keys rowsA >>= fun c1 => c1.push keys rowsB

/-- Modelled from the spec: the command-protocol server
(parameter_server.py is not under src) applies set by overwriting the
stored values at keys; out-of-range keys fail with InvalidKeyError. -/
def torch_server_set (store : Store) (keys : List ℕ) (rows : List Row) :
    Except PSErr Store :=
  if keys.all (fun k => decide (k < store.length)) then
    .ok (index_put store keys rows)
  else
    .error .invalidKey

/-- TorchParameterClient.set (source lines 230-234): sends the header,
the keys and the rows (torch_set_msgs gives the wire form); the
server-side overwrite is modelled from the spec. -/
def TorchParameterClient.set (c : TorchParameterClient) (keys : List ℕ)
    (set_tensor : List Row) : Except PSErr TorchParameterClient := do
  let s ← torch_server_set c.serverStore keys set_tensor
  pure { c with serverStore := s }

/-- Modelled from the spec: the lapse engine (external adaps package)
applies set by overwriting the stored values at keys. -/
def lapse_engine_set (engine : Store) (keys : List ℕ) (rows : List Row) :
    Except PSErr Store :=
  if keys.all (fun k => decide (k < engine.length)) then
    .ok (index_put engine keys rows)
  else
    .error .invalidKey

/-- LapseParameterClient.set (source lines 144-145): delegates to the
engine (modelled from the spec). -/
def LapseParameterClient.set (c : LapseParameterClient) (keys : List ℕ)
    (set_tensor : List Row) : Except PSErr LapseParameterClient := do
  let s ← lapse_engine_set c.engine keys set_tensor
  pure { c with engine := s }

/-- Set followed by pull of the same keys on the command-protocol
backend; the pulled value is the content received into the buffer. -/
def torch_set_then_pull (c : TorchParameterClient) (keys : List ℕ)
    (rows : List Row) : Except PSErr (List Row) :=
  c.set keys rows >>= fun c1 => (c1.pull keys none).received

/-- Set followed by pull of the same keys on the embedded-server
backend. -/
def lapse_set_then_pull (c : LapseParameterClient) (keys : List ℕ)
    (rows : List Row) : Except PSErr (List Row) :=
  c.set keys rows >>= fun c1 => c1.pull keys none

/-- Fuel-driven binary logarithm on naturals: with fuel at least n,
natLog2Aux fuel n is the floor of log2 of n for n at least 1. -/
def natLog2Aux : ℕ → ℕ → ℕ
  | 0, _ => 0
  | fuel + 1, n => if 2 ≤ n then natLog2Aux fuel (n / 2) + 1 else 0

/-- Floor of the binary logarithm of a positive natural. -/
def natLog2 (n : ℕ) : ℕ := natLog2Aux n n

/-- Floor of the binary logarithm of a positive rational y: the unique
e with 2 ^ e ≤ y < 2 ^ (e + 1) (junk value when y is not positive).
For y = p / q in lowest terms, the true value is natLog2 p - natLog2 q
or one less, decided by one comparison. -/
def qlog2 (y : ℚ) : ℤ :=
  let d : ℤ := (natLog2 y.num.natAbs : ℤ) - (natLog2 y.den : ℤ)
  if (2 : ℚ) ^ d ≤ y then d else d - 1

/-- Round a rational to the nearest IEEE-754 binary32 value: 24-bit
significand, round to nearest, ties to even.  The magnitude is scaled
into [2 ^ 23, 2 ^ 24), its fractional part decides the rounding, and
the sign is reapplied.  Faithful on the normal range of binary32, which
contains every value the claims touch; overflow to infinity and
subnormal granularity are not modelled. -/
def round32 (x : ℚ) : ℚ :=
  if x = 0 then 0
  else
    let y : ℚ := |x|
    let e : ℤ := qlog2 y - 23
    let m : ℚ := y / 2 ^ e
    let n : ℤ := ⌊m⌋
    let frac : ℚ := m - (n : ℚ)
    let n2 : ℤ :=
      if frac < 1 / 2 then n
      else if 1 / 2 < frac then n + 1
      else if n % 2 = 0 then n else n + 1
    (if 0 < x then 1 else -1) * (n2 : ℚ) * 2 ^ e

/-- Elementwise float32 addition of two rows: the exact sum rounded to
binary32.  The tensors in the source are float32 (lines 211 and 301),
so this, not exact addition, is the arithmetic the program performs. -/
def addRow32 (a b : Row) : Row :=
  List.zipWith (fun x y => round32 (x + y)) a b

/-- SharedParameterClient.push under the source's float32 arithmetic
(source lines 329-332 with dtype float32 from line 301): identical to
push except that each elementwise sum is rounded to binary32. -/
def SharedParameterClient.push_f32 (c : SharedParameterClient)
    (keys : List ℕ) (push_tensor : List Row) :
    Except PSErr SharedParameterClient :=
  let updated :=
    index_put c.parameters keys
      (List.zipWith addRow32 (gather c.parameters keys) push_tensor)
  if keys.all (fun k => decide (k < c.parameters.length)) then
    .ok { c with parameters := updated }
  else
    .error .invalidKey

/-- Two float32 pushes in sequence on the local-memory backend. -/
def push_then_push_f32 (c : SharedParameterClient) (keys : List ℕ)
    (rowsA rowsB : List Row) : Except PSErr SharedParameterClient :=
  c.push_f32 keys rowsA >>= fun c1 => c1.push_f32 keys rowsB

theorem except_bind_ok {ε α β : Type _} (a : α) (f : α → Except ε β) :
    (Except.ok (ε := ε) a >>= f) = f a := rfl

theorem index_put_cons (p : Store) (k : ℕ) (ks : List ℕ) (r : Row)
    (rs : List Row) :
    index_put p (k :: ks) (r :: rs) = index_put (p.set k r) ks rs := rfl

theorem index_put_nil_rows (p : Store) (keys : List ℕ) :
    index_put p keys [] = p := by
  cases keys <;> rfl

theorem length_index_put (keys : List ℕ) :
    ∀ (rows : List Row) (p : Store),
      (index_put p keys rows).length = p.length := by
  induction keys with
  | nil => intro rows p; rfl
  | cons k ks ih =>
    intro rows p
    cases rows with
    | nil => rw [index_put_nil_rows]
    | cons r rs => rw [index_put_cons, ih, List.length_set]

theorem length_gather (p : Store) (keys : List ℕ) :
    (gather p keys).length = keys.length := by
  simp [gather]

theorem getD_index_put_of_not_mem (keys : List ℕ) :
    ∀ (rows : List Row) (p : Store) (k : ℕ), k ∉ keys →
      (index_put p keys rows).getD k [] = p.getD k [] := by
  induction keys with
  | nil => intro rows p k _; rfl
  | cons k1 ks ih =>
    intro rows p k hk
    cases rows with
    | nil => rw [index_put_nil_rows]
    | cons r rs =>
      have hk1 : k ∉ ks := fun h => hk (List.mem_cons_of_mem _ h)
      have hne : k1 ≠ k := fun h => hk (h ▸ List.mem_cons_self _ _)
      rw [index_put_cons, ih rs _ k hk1,
        List.getD_eq_getElem?_getD, List.getElem?_set_ne hne,
        ← List.getD_eq_getElem?_getD]

theorem getD_set_self (p : Store) (k : ℕ) (r : Row) (h : k < p.length) :
    (p.set k r).getD k [] = r := by
  rw [List.getD_eq_getElem?_getD, List.getElem?_set_self h, Option.getD_some]

theorem gather_index_put (keys : List ℕ) :
    ∀ (rows : List Row) (p : Store), keys.Nodup →
      (∀ k ∈ keys, k < p.length) → rows.length = keys.length →
      gather (index_put p keys rows) keys = rows := by
  induction keys with
  | nil =>
    intro rows p _ _ hl
    cases rows with
    | nil => rfl
    | cons r rs => simp at hl
  | cons k ks ih =>
    intro rows p hnd hb hl
    cases rows with
    | nil => simp at hl
    | cons r rs =>
      rw [List.nodup_cons] at hnd
      rw [index_put_cons]
      show (index_put (p.set k r) ks rs).getD k [] ::
        gather (index_put (p.set k r) ks rs) ks = r :: rs
      congr 1
      · rw [getD_index_put_of_not_mem ks rs _ k hnd.1,
          getD_set_self _ _ _ (hb k (List.mem_cons_self _ _))]
      · exact ih rs (p.set k r) hnd.2
          (fun j hj => by
            rw [List.length_set]; exact hb j (List.mem_cons_of_mem _ hj))
          (by simpa using hl)

theorem set_index_put (keys : List ℕ) :
    ∀ (rows : List Row) (p : Store) (k : ℕ) (x : Row), k ∉ keys →
      (index_put p keys rows).set k x = index_put (p.set k x) keys rows := by
  induction keys with
  | nil => intro rows p k x _; rfl
  | cons k1 ks ih =>
    intro rows p k x hk
    cases rows with
    | nil => rw [index_put_nil_rows, index_put_nil_rows]
    | cons r rs =>
      have hk1 : k ∉ ks := fun h => hk (List.mem_cons_of_mem _ h)
      have hne : k1 ≠ k := fun h => hk (h ▸ List.mem_cons_self _ _)
      rw [index_put_cons, ih rs _ k x hk1, List.set_comm r x p hne,
        index_put_cons]

theorem index_put_index_put (keys : List ℕ) :
    ∀ (rowsY rowsX : List Row) (p : Store), keys.Nodup →
      rowsY.length = keys.length → rowsX.length = keys.length →
      index_put (index_put p keys rowsY) keys rowsX =
        index_put p keys rowsX := by
  induction keys with
  | nil => intro rowsY rowsX p _ _ _; rfl
  | cons k ks ih =>
    intro rowsY rowsX p hnd hY hX
    cases rowsY with
    | nil => simp at hY
    | cons y ys =>
      cases rowsX with
      | nil => simp at hX
      | cons x xs =>
        rw [List.nodup_cons] at hnd
        simp only [index_put_cons]
        rw [set_index_put ks ys _ k x hnd.1, List.set_set,
          ih ys xs (p.set k x) hnd.2 (by simpa using hY) (by simpa using hX)]

theorem zipWith_assoc3 {α : Type _} (f : α → α → α)
    (hf : ∀ x y z, f (f x y) z = f x (f y z)) :
    ∀ (a b c : List α),
      List.zipWith f (List.zipWith f a b) c =
        List.zipWith f a (List.zipWith f b c)
  | [], _, _ => by simp
  | _ :: _, [], _ => by simp
  | _ :: _, _ :: _, [] => by simp
  | x :: a, y :: b, z :: c => by
    simp only [List.zipWith_cons_cons]
    rw [hf, zipWith_assoc3 f hf a b c]

theorem addRow_assoc (a b c : Row) :
    addRow (addRow a b) c = addRow a (addRow b c) :=
  zipWith_assoc3 _ (fun x y z => add_assoc x y z) a b c

theorem getD_replicate {α : Type _} (n k : ℕ) (z d : α) (h : k < n) :
    (List.replicate n z).getD k d = z := by
  rw [List.getD_eq_getElem?_getD, List.getElem?_replicate, if_pos h,
    Option.getD_some]

theorem addRow_replicate (d : ℕ) (x y : ℚ) :
    addRow (List.replicate d x) (List.replicate d y) =
      List.replicate d (x + y) := by
  simp [addRow, List.zipWith_replicate]

theorem any_one_replicate_zero (d : ℕ) :
    (List.replicate d (0 : ℚ)).any (fun v => decide (v = 1)) = false := by
  induction d with
  | zero => rfl
  | succ j ih =>
    rw [List.replicate_succ, List.any_cons, ih]
    norm_num

theorem any_one_replicate_one (d : ℕ) (h : 1 ≤ d) :
    (List.replicate d (1 : ℚ)).any (fun v => decide (v = 1)) = true := by
  cases d with
  | zero => exact absurd h (by decide)
  | succ j => simp [List.replicate_succ, List.any_cons]

theorem headD_replicate_one (d : ℕ) (h : 1 ≤ d) :
    (List.replicate d (1 : ℚ)).headD 0 = 1 := by
  cases d with
  | zero => exact absurd h (by decide)
  | succ j => rw [List.replicate_succ]; rfl

theorem all_lt_of_bounds (keys : List ℕ) (n : ℕ) (h : ∀ k ∈ keys, k < n) :
    keys.all (fun k => decide (k < n)) = true := by
  rw [List.all_eq_true]
  intro x hx
  simpa using h x hx

theorem all_lt_false_of_exists (keys : List ℕ) (n : ℕ)
    (h : ∃ k ∈ keys, n ≤ k) :
    keys.all (fun k => decide (k < n)) = false := by
  rw [List.all_eq_false]
  obtain ⟨k, hk, hn⟩ := h
  exact ⟨k, hk, by simpa using Nat.not_lt.mpr hn⟩

theorem bool_if_collapse (b : Bool) : (if b = true then true else false) = b := by
  cases b <;> rfl

theorem shared_pull_single (c : SharedParameterClient) (k : ℕ)
    (h : k < c.parameters.length) :
    c.pull [k] = .ok [c.parameters.getD k []] := by
  unfold SharedParameterClient.pull
  rw [all_lt_of_bounds [k] _ (by simpa using h), if_pos rfl]
  rfl

theorem shared_push_single (c : SharedParameterClient) (k : ℕ) (r : Row)
    (h : k < c.parameters.length) :
    c.push [k] [r] =
      .ok { c with parameters := (c.parameters.set k (addRow (c.parameters.getD k []) r)) } := by
  unfold SharedParameterClient.push
  rw [all_lt_of_bounds [k] _ (by simpa using h), if_pos rfl]
  rfl

theorem shared_is_stopped_eq (c : SharedParameterClient)
    (h : c.stop_key < c.parameters.length) :
    c.is_stopped = .ok ((c.parameters.getD c.stop_key []).any
      (fun v => decide (v = 1))) := by
  unfold SharedParameterClient.is_stopped
  rw [shared_pull_single c _ h, except_bind_ok]
  simp only [List.getD_cons_zero]
  rw [bool_if_collapse]
  rfl

theorem torch_pull_single (store : Store) (k : ℕ) (h : k < store.length) :
    torch_server_pull store [k] = .ok [store.getD k []] := by
  unfold torch_server_pull
  rw [all_lt_of_bounds [k] _ (by simpa using h), if_pos rfl]
  rfl

theorem torch_push_single (store : Store) (k : ℕ) (r : Row)
    (h : k < store.length) :
    torch_server_push store [k] [r] =
      .ok (store.set k (addRow (store.getD k []) r)) := by
  unfold torch_server_push
  rw [all_lt_of_bounds [k] _ (by simpa using h), if_pos rfl]
  rfl

theorem torch_is_stopped_eq (c : TorchParameterClient)
    (h : c.stop_key < c.serverStore.length) :
    c.is_stopped = .ok ((c.serverStore.getD c.stop_key []).any
      (fun v => decide (v = 1))) := by
  unfold TorchParameterClient.is_stopped
  rw [torch_pull_single _ _ h, except_bind_ok]
  simp only [List.getD_cons_zero]
  rw [bool_if_collapse]
  rfl

theorem lapse_pull_single (engine : Store) (k : ℕ) (h : k < engine.length) :
    lapse_engine_pull engine [k] = .ok [engine.getD k []] := by
  unfold lapse_engine_pull
  rw [all_lt_of_bounds [k] _ (by simpa using h), if_pos rfl]
  rfl

theorem lapse_push_single (engine : Store) (k : ℕ) (r : Row)
    (h : k < engine.length) :
    lapse_engine_push engine [k] [r] =
      .ok (engine.set k (addRow (engine.getD k []) r)) := by
  unfold lapse_engine_push
  rw [all_lt_of_bounds [k] _ (by simpa using h), if_pos rfl]
  rfl

theorem lapse_is_stopped_eq (c : LapseParameterClient)
    (h : c.stop_key < c.engine.length) :
    c.is_stopped = .ok (decide ((c.engine.getD c.stop_key []).headD 0 = 1)) := by
  unfold LapseParameterClient.is_stopped
  rw [lapse_pull_single _ _ h, except_bind_ok]
  simp only [List.getD_cons_zero]
  by_cases hb : (c.engine.getD c.stop_key []).headD 0 = 1
  · rw [if_pos hb, decide_eq_true hb]
    rfl
  · rw [if_neg hb, decide_eq_false hb]
    rfl

/-- Claim C1: for every backend, a pull whose key list contains any key
at or beyond num_keys fails with the invalid-key error; the key is
never silently clamped or accessed. -/
theorem C1_pull_invalid_key :
    (∀ (c : SharedParameterClient) (keys : List ℕ),
        (∃ k ∈ keys, c.num_keys ≤ k) →
        c.pull keys = .error .invalidKey) ∧
    (∀ (t : TorchParameterClient) (keys : List ℕ) (buf : Option Store),
        (∃ k ∈ keys, t.serverStore.length ≤ k) →
        (t.pull keys buf).received = .error .invalidKey) ∧
    (∀ (lc : LapseParameterClient) (keys : List ℕ) (buf : Option Store),
        (∃ k ∈ keys, lc.engine.length ≤ k) →
        lc.pull keys buf = .error .invalidKey) := by
  refine ⟨fun c keys h => ?_, fun t keys buf h => ?_, fun lc keys buf h => ?_⟩
  · have h' : ∃ k ∈ keys, c.parameters.length ≤ k := h
    unfold SharedParameterClient.pull
    rw [all_lt_false_of_exists _ _ h']
    rfl
  · show torch_server_pull t.serverStore keys = .error .invalidKey
    unfold torch_server_pull
    rw [all_lt_false_of_exists _ _ h]
    rfl
  · show lapse_engine_pull lc.engine keys = .error .invalidKey
    unfold lapse_engine_pull
    rw [all_lt_false_of_exists _ _ h]
    rfl

/-- Witness for C1: the spec's own concrete instance, pull of key 107 on
a 107-key store, and one-key instances for the other two backends. -/
theorem C1_pull_invalid_key_witness :
    c107.pull [107] = .error .invalidKey ∧
    ((freshTorch 1 0 1 0).pull [1] none).received = .error .invalidKey ∧
    (freshLapse 1 0 1).pull [1] none = .error .invalidKey :=
  ⟨C1_pull_invalid_key.1 c107 [107] (by decide),
   C1_pull_invalid_key.2.1 (freshTorch 1 0 1 0) [1] none (by decide),
   C1_pull_invalid_key.2.2 (freshLapse 1 0 1) [1] none (by decide)⟩

/-- Claim C3: localize on the embedded-server (lapse) backend raises the
unsupported-operation error; on the command-protocol backend it returns
normally, sends nothing and changes nothing; on the local-memory backend
it returns normally with every stored row unchanged. -/
theorem C3_localize_behavior :
    (∀ (lc : LapseParameterClient) (keys : List ℕ),
        lc.localize keys = .error .notImplemented) ∧
    (∀ (t : TorchParameterClient) (keys : List ℕ),
        t.localize keys = (t, [])) ∧
    (∀ (c : SharedParameterClient) (keys : List ℕ),
        c.localize keys = c) :=
  ⟨fun _ _ => rfl, fun _ _ => rfl, fun _ _ => rfl⟩

/-- Claim C4 as amended: every request of the command-protocol backend
starts with a 2-element integer header [command_code, arg]; arg is the
number of keys sent for pull, push and set, it is 0 for shutdown,
get_lr and set_lr, and for step_optim and get_step_optim it is the
parameter index (0 for the entity group, 1 otherwise), not a payload
length. -/
theorem C4_header_amended :
    (∀ keys : List ℕ,
        headerSecond (torch_pull_msgs keys) = some (keys.length : ℤ) ∧
        numKeysSent (torch_pull_msgs keys) = keys.length ∧
        isHeader2 (torch_pull_msgs keys) = true) ∧
    (∀ (keys : List ℕ) (t : Store),
        headerSecond (torch_push_msgs keys t) = some (keys.length : ℤ) ∧
        numKeysSent (torch_push_msgs keys t) = keys.length ∧
        isHeader2 (torch_push_msgs keys t) = true) ∧
    (∀ (keys : List ℕ) (t : Store),
        headerSecond (torch_set_msgs keys t) = some (keys.length : ℤ) ∧
        numKeysSent (torch_set_msgs keys t) = keys.length ∧
        isHeader2 (torch_set_msgs keys t) = true) ∧
    (headerSecond torch_shutdown_msgs = some 0 ∧
        numKeysSent torch_shutdown_msgs = 0 ∧
        isHeader2 torch_shutdown_msgs = true) ∧
    (∀ g : String,
        headerSecond (torch_step_optim_msgs g) =
          some (if g = "entity" then (0 : ℤ) else 1) ∧
        numKeysSent (torch_step_optim_msgs g) = 0 ∧
        isHeader2 (torch_step_optim_msgs g) = true) ∧
    (∀ g : String,
        headerSecond (torch_get_step_optim_msgs g) =
          some (if g = "entity" then (0 : ℤ) else 1) ∧
        numKeysSent (torch_get_step_optim_msgs g) = 0 ∧
        isHeader2 (torch_get_step_optim_msgs g) = true) ∧
    (∀ (g : String) (ms : List Msg), torch_get_lr_msgs g = some ms →
        headerSecond ms = some 0 ∧ numKeysSent ms = 0 ∧
        isHeader2 ms = true) ∧
    (∀ (g : String) (lr : ℚ) (ms : List Msg),
        torch_set_lr_msgs g lr = some ms →
        headerSecond ms = some 0 ∧ numKeysSent ms = 0 ∧
        isHeader2 ms = true) := by
  refine ⟨fun keys => ⟨rfl, ?_, rfl⟩, fun keys t => ⟨rfl, ?_, rfl⟩,
    fun keys t => ⟨rfl, ?_, rfl⟩, ⟨rfl, rfl, rfl⟩,
    fun g => ⟨rfl, rfl, rfl⟩, fun g => ⟨rfl, rfl, rfl⟩,
    fun g ms h => ?_, fun g lr ms h => ?_⟩
  · simp [torch_pull_msgs, numKeysSent]
  · simp [torch_push_msgs, numKeysSent]
  · simp [torch_set_msgs, numKeysSent]
  · unfold torch_get_lr_msgs at h
    by_cases h1 : g = "entity"
    · rw [if_pos h1] at h
      injection h with h2
      subst h2
      exact ⟨rfl, rfl, rfl⟩
    · rw [if_neg h1] at h
      by_cases h2 : g = "relation"
      · rw [if_pos h2] at h
        injection h with h3
        subst h3
        exact ⟨rfl, rfl, rfl⟩
      · rw [if_neg h2] at h
        exact Option.noConfusion h
  · unfold torch_set_lr_msgs at h
    by_cases h1 : g = "entity"
    · rw [if_pos h1] at h
      injection h with h2
      subst h2
      exact ⟨rfl, rfl, rfl⟩
    · rw [if_neg h1] at h
      by_cases h2 : g = "relation"
      · rw [if_pos h2] at h
        injection h with h3
        subst h3
        exact ⟨rfl, rfl, rfl⟩
      · rw [if_neg h2] at h
        exact Option.noConfusion h

/-- Witness for C4 as amended: instantiation of the get_lr conjunct at
the entity group. -/
theorem C4_header_amended_witness :
    headerSecond [Msg.ints [GET_ENTITY_LR_CMD, 0]] = some 0 ∧
    numKeysSent [Msg.ints [GET_ENTITY_LR_CMD, 0]] = 0 ∧
    isHeader2 [Msg.ints [GET_ENTITY_LR_CMD, 0]] = true :=
  C4_header_amended.2.2.2.2.2.2.1 "entity" [Msg.ints [GET_ENTITY_LR_CMD, 0]]
    (by decide)

/-- Counterexample to C4 as stated: step_optim for the relation group
sends the header [STEP_OPTIM_CMD, 1] although zero keys follow, so the
second header element is not the payload length. -/
theorem C4_counterexample :
    headerSecond (torch_step_optim_msgs "relation") ≠
      some ((numKeysSent (torch_step_optim_msgs "relation") : ℕ) : ℤ) := by
  decide

/-- Claim C10: the command-protocol backend dispatches step_optim and
get_step_optim with parameter index 0 exactly for the entity group and
1 for every other group name, with no validation and no error. -/
theorem C10_group_dispatch :
    (∀ g : String,
        torch_step_optim_msgs g =
          [Msg.ints [STEP_OPTIM_CMD, if g = "entity" then (0 : ℤ) else 1]] ∧
        torch_get_step_optim_msgs g =
          [Msg.ints [GET_OPTIM_STEP_CMD, if g = "entity" then (0 : ℤ) else 1]]) ∧
    (∀ g : String, g ≠ "entity" →
        torch_step_optim_msgs g = [Msg.ints [STEP_OPTIM_CMD, 1]] ∧
        torch_get_step_optim_msgs g = [Msg.ints [GET_OPTIM_STEP_CMD, 1]]) := by
  constructor
  · intro g
    exact ⟨rfl, rfl⟩
  · intro g hg
    constructor
    · unfold torch_step_optim_msgs
      rw [if_neg hg]
    · unfold torch_get_step_optim_msgs
      rw [if_neg hg]

/-- Witness for C10: a group name that is neither entity nor relation is
dispatched with parameter index 1 and raises nothing. -/
theorem C10_group_dispatch_witness :
    torch_step_optim_msgs "optimizer" = [Msg.ints [STEP_OPTIM_CMD, 1]] ∧
    torch_get_step_optim_msgs "optimizer" = [Msg.ints [GET_OPTIM_STEP_CMD, 1]] :=
  C10_group_dispatch.2 "optimizer" (by decide)

/-- Claim C5, evaluated at a failing input: the command-protocol pull
without an out buffer allocates a (len(keys), dim) zero buffer and
receives the rows into it, yet the call returns None (the function body
has no return statement), so the pulled rows never reach the caller. -/
theorem C5_pull_return_eval :
    (({ serverStore := [[5]], num_keys := 1, num_meta_keys := 0, dim := 1 } :
        TorchParameterClient).pull [0] none).allocated = some [[0]] ∧
    (({ serverStore := [[5]], num_keys := 1, num_meta_keys := 0, dim := 1 } :
        TorchParameterClient).pull [0] none).received = .ok [[5]] ∧
    (({ serverStore := [[5]], num_keys := 1, num_meta_keys := 0, dim := 1 } :
        TorchParameterClient).pull [0] none).ret = none := by
  refine ⟨rfl, by decide, rfl⟩

/-- Claim C6 as amended: is_stopped on the command-protocol and
local-memory backends returns true iff ANY component of the stop row
equals 1; only the embedded-server (lapse) backend tests the first
component. -/
theorem C6_is_stopped_amended :
    (∀ c : SharedParameterClient, c.stop_key < c.parameters.length →
        c.is_stopped = .ok ((c.parameters.getD c.stop_key []).any
          (fun v => decide (v = 1)))) ∧
    (∀ t : TorchParameterClient, t.stop_key < t.serverStore.length →
        t.is_stopped = .ok ((t.serverStore.getD t.stop_key []).any
          (fun v => decide (v = 1)))) ∧
    (∀ lc : LapseParameterClient, lc.stop_key < lc.engine.length →
        lc.is_stopped = .ok
          (decide ((lc.engine.getD lc.stop_key []).headD 0 = 1))) :=
  ⟨shared_is_stopped_eq, torch_is_stopped_eq, lapse_is_stopped_eq⟩

/-- Witness for C6 as amended: concrete one-row clients. -/
theorem C6_is_stopped_amended_witness :
    (({ parameters := [[0, 1]], num_meta_keys := 1, dim := 2 } :
        SharedParameterClient).is_stopped =
      .ok ((([[0, 1]] : Store).getD
        ({ parameters := [[0, 1]], num_meta_keys := 1, dim := 2 } :
          SharedParameterClient).stop_key []).any (fun v => decide (v = 1)))) ∧
    ((freshTorch 1 1 2 0).is_stopped =
      .ok (((freshTorch 1 1 2 0).serverStore.getD
        (freshTorch 1 1 2 0).stop_key []).any (fun v => decide (v = 1)))) ∧
    ((freshLapse 1 1 2).is_stopped =
      .ok (decide (((freshLapse 1 1 2).engine.getD
        (freshLapse 1 1 2).stop_key []).headD 0 = 1))) :=
  ⟨C6_is_stopped_amended.1 _ (by decide),
   C6_is_stopped_amended.2.1 _ (by decide),
   C6_is_stopped_amended.2.2 _ (by decide)⟩

/-- Counterexample to C6 as stated: on the local-memory backend a stop
row whose first component is 0 but whose second component is 1 makes
is_stopped return true, so true is not equivalent to the first
component being 1. -/
theorem C6_counterexample :
    (({ parameters := [[0, 1]], num_meta_keys := 1, dim := 2 } :
        SharedParameterClient).is_stopped = .ok true) ∧
    ((({ parameters := [[0, 1]], num_meta_keys := 1, dim := 2 } :
        SharedParameterClient).parameters.getD
      ({ parameters := [[0, 1]], num_meta_keys := 1, dim := 2 } :
        SharedParameterClient).stop_key []).headD 0 ≠ 1) := by
  exact ⟨by decide, by decide⟩

set_option maxRecDepth 4000

/-- Claim C7: with num_keys=107, num_meta_keys=5, embedding_dim=100 and
optimizer_dim=0 construction yields dim=100, the five meta keys are
102..106 for stop, optim_entity_step, optim_relation_step, entity_lr
and relation_lr in that order, and pulling key 102 from the fresh store
yields a zero vector of length 100. -/
theorem C7_concrete_scenario :
    c107.dim = 100 ∧ c107.num_keys = 107 ∧ c107.stop_key = 102 ∧
    c107.optim_entity_step_key = 103 ∧ c107.optim_relation_step_key = 104 ∧
    c107.entity_lr_key = 105 ∧ c107.relation_lr_key = 106 ∧
    c107.pull [102] = .ok [List.replicate 100 0] := by
  refine ⟨rfl, by decide, by decide, by decide, by decide, by decide,
    by decide, by decide⟩

theorem except_pure_bind {ε α β : Type _} (a : α) (f : α → Except ε β) :
    ((pure a : Except ε α) >>= f) = f a := rfl

theorem headD_replicate_zero (d : ℕ) :
    (List.replicate d (0 : ℚ)).headD 0 = 0 := by
  cases d with
  | zero => rfl
  | succ j => rw [List.replicate_succ]; rfl

theorem shared_stop_is_stopped (c : SharedParameterClient)
    (hk : c.stop_key < c.parameters.length) (hd : 1 ≤ c.dim)
    (hrow : c.parameters.getD c.stop_key [] = List.replicate c.dim 0) :
    c.is_stopped = .ok false ∧
    (c.stop >>= SharedParameterClient.is_stopped) = .ok true := by
  constructor
  · rw [shared_is_stopped_eq c hk, hrow, any_one_replicate_zero]
  · unfold SharedParameterClient.stop
    rw [shared_push_single c _ _ hk, except_bind_ok, hrow, addRow_replicate,
      zero_add]
    have hsk1 : ({ c with parameters :=
        (c.parameters.set c.stop_key (List.replicate c.dim 1)) } :
        SharedParameterClient).stop_key = c.stop_key := by
      show (c.parameters.set c.stop_key (List.replicate c.dim 1)).length -
        c.num_meta_keys = c.stop_key
      rw [List.length_set]
      rfl
    have hk1 : ({ c with parameters :=
        (c.parameters.set c.stop_key (List.replicate c.dim 1)) } :
        SharedParameterClient).stop_key <
        ({ c with parameters :=
          (c.parameters.set c.stop_key (List.replicate c.dim 1)) } :
          SharedParameterClient).parameters.length := by
      rw [hsk1]
      show c.stop_key < (c.parameters.set c.stop_key
        (List.replicate c.dim 1)).length
      rw [List.length_set]
      exact hk
    rw [shared_is_stopped_eq _ hk1, hsk1]
    show Except.ok (((c.parameters.set c.stop_key
      (List.replicate c.dim 1)).getD c.stop_key []).any
        (fun v => decide (v = 1))) = Except.ok true
    rw [getD_set_self _ _ _ hk, any_one_replicate_one _ hd]

theorem torch_stop_is_stopped (c : TorchParameterClient)
    (hk : c.stop_key < c.serverStore.length) (hd : 1 ≤ c.dim)
    (hrow : c.serverStore.getD c.stop_key [] = List.replicate c.dim 0) :
    c.is_stopped = .ok false ∧
    (c.stop >>= TorchParameterClient.is_stopped) = .ok true := by
  constructor
  · rw [torch_is_stopped_eq c hk, hrow, any_one_replicate_zero]
  · unfold TorchParameterClient.stop
    rw [torch_push_single _ _ _ hk, except_bind_ok, except_pure_bind, hrow,
      addRow_replicate, zero_add]
    have hk1 : ({ c with serverStore :=
        (c.serverStore.set c.stop_key (List.replicate c.dim 1)) } :
        TorchParameterClient).stop_key <
        ({ c with serverStore :=
          (c.serverStore.set c.stop_key (List.replicate c.dim 1)) } :
          TorchParameterClient).serverStore.length := by
      show c.stop_key < (c.serverStore.set c.stop_key
        (List.replicate c.dim 1)).length
      rw [List.length_set]
      exact hk
    rw [torch_is_stopped_eq _ hk1]
    show Except.ok (((c.serverStore.set c.stop_key
      (List.replicate c.dim 1)).getD c.stop_key []).any
        (fun v => decide (v = 1))) = Except.ok true
    rw [getD_set_self _ _ _ hk, any_one_replicate_one _ hd]

theorem lapse_stop_is_stopped (c : LapseParameterClient)
    (hk : c.stop_key < c.engine.length) (hd : 1 ≤ c.key_size)
    (hrow : c.engine.getD c.stop_key [] = List.replicate c.key_size 0) :
    c.is_stopped = .ok false ∧
    (c.stop >>= LapseParameterClient.is_stopped) = .ok true := by
  constructor
  · rw [lapse_is_stopped_eq c hk, hrow, headD_replicate_zero]
    norm_num
  · unfold LapseParameterClient.stop
    rw [lapse_push_single _ _ _ hk, except_bind_ok, except_pure_bind, hrow,
      addRow_replicate, zero_add]
    have hk1 : ({ c with engine :=
        (c.engine.set c.stop_key (List.replicate c.key_size 1)) } :
        LapseParameterClient).stop_key <
        ({ c with engine :=
          (c.engine.set c.stop_key (List.replicate c.key_size 1)) } :
          LapseParameterClient).engine.length := by
      show c.stop_key < (c.engine.set c.stop_key
        (List.replicate c.key_size 1)).length
      rw [List.length_set]
      exact hk
    rw [lapse_is_stopped_eq _ hk1]
    show Except.ok (decide (((c.engine.set c.stop_key
      (List.replicate c.key_size 1)).getD c.stop_key []).headD 0 = 1)) =
      Except.ok true
    rw [getD_set_self _ _ _ hk, headD_replicate_one _ hd]
    norm_num

/-- Counterexample to C2 as stated: stop() accumulates rather than
overwriting, so two stop() calls on a fresh store leave the stop row at
2 and is_stopped returns false although stop() has been called. -/
theorem C2_counterexample :
    ((freshShared 6 5 1 0).stop >>= SharedParameterClient.stop >>=
      SharedParameterClient.is_stopped) = .ok false := by
  have e1 : (0 : ℚ) + 1 = 1 := by norm_num
  have e2 : (1 : ℚ) + 1 = 2 := by norm_num
  have s1 : (freshShared 6 5 1 0).stop =
      .ok (mkSharedParameterClient 1 0 5
        [[0], [(0 : ℚ) + 1], [0], [0], [0], [0]]) := rfl
  rw [s1, except_bind_ok, e1]
  have s2 : (mkSharedParameterClient 1 0 5
      [[0], [(1 : ℚ)], [0], [0], [0], [0]]).stop =
      .ok (mkSharedParameterClient 1 0 5
        [[0], [(1 : ℚ) + 1], [0], [0], [0], [0]]) := rfl
  rw [s2, except_bind_ok, e2]
  decide

/-- Claim C2 as amended: stop() pushes (adds) a row of ones onto the
stop meta key instead of overwriting it with 1; consequently a freshly
constructed zero-initialized store reports is_stopped() = false, and a
single stop() on a fresh store makes is_stopped() = true, on every
backend. -/
theorem C2_stop_amended :
    (∀ c : SharedParameterClient, c.stop_key < c.num_keys →
        c.stop = .ok { c with parameters := (c.parameters.set c.stop_key (addRow (c.parameters.getD c.stop_key []) (List.replicate c.dim 1))) }) ∧
    (∀ n m ed od : ℕ, n - m < n → 1 ≤ ed + od →
        (freshShared n m ed od).is_stopped = .ok false ∧
        ((freshShared n m ed od).stop >>= SharedParameterClient.is_stopped) =
          .ok true) ∧
    (∀ n m ed od : ℕ, n - m < n → 1 ≤ ed + od →
        (freshTorch n m ed od).is_stopped = .ok false ∧
        ((freshTorch n m ed od).stop >>= TorchParameterClient.is_stopped) =
          .ok true) ∧
    (∀ n m ks : ℕ, n - m < n → 1 ≤ ks →
        (freshLapse n m ks).is_stopped = .ok false ∧
        ((freshLapse n m ks).stop >>= LapseParameterClient.is_stopped) =
          .ok true) := by
  refine ⟨fun c h => ?_, fun n m ed od h1 h2 => ?_, fun n m ed od h1 h2 => ?_,
    fun n m ks h1 h2 => ?_⟩
  · unfold SharedParameterClient.stop
    exact shared_push_single c _ _ h
  · have hks : (freshShared n m ed od).stop_key = n - m := by
      show (List.replicate n (List.replicate (ed + od) (0 : ℚ))).length - m =
        n - m
      rw [List.length_replicate]
    apply shared_stop_is_stopped
    · rw [hks]
      show n - m < (List.replicate n (List.replicate (ed + od) (0 : ℚ))).length
      rw [List.length_replicate]
      exact h1
    · exact h2
    · rw [hks]
      exact getD_replicate n (n - m) _ _ h1
  · have hks : (freshTorch n m ed od).stop_key = n - m := rfl
    apply torch_stop_is_stopped
    · rw [hks]
      show n - m < (List.replicate n (List.replicate (ed + od) (0 : ℚ))).length
      rw [List.length_replicate]
      exact h1
    · exact h2
    · rw [hks]
      exact getD_replicate n (n - m) _ _ h1
  · have hks : (freshLapse n m ks).stop_key = n - m := rfl
    apply lapse_stop_is_stopped
    · rw [hks]
      show n - m < (List.replicate n (List.replicate ks (0 : ℚ))).length
      rw [List.length_replicate]
      exact h1
    · exact h2
    · rw [hks]
      exact getD_replicate n (n - m) _ _ h1

/-- Witness for C2 as amended: concrete 6-key, 5-meta-key stores. -/
theorem C2_stop_amended_witness :
    ((freshShared 6 5 1 0).stop = .ok { freshShared 6 5 1 0 with parameters := ((freshShared 6 5 1 0).parameters.set (freshShared 6 5 1 0).stop_key (addRow ((freshShared 6 5 1 0).parameters.getD (freshShared 6 5 1 0).stop_key []) (List.replicate (freshShared 6 5 1 0).dim 1))) }) ∧
    ((freshShared 6 5 1 0).is_stopped = .ok false ∧
      ((freshShared 6 5 1 0).stop >>= SharedParameterClient.is_stopped) =
        .ok true) ∧
    ((freshTorch 6 5 1 0).is_stopped = .ok false ∧
      ((freshTorch 6 5 1 0).stop >>= TorchParameterClient.is_stopped) =
        .ok true) ∧
    ((freshLapse 6 5 1).is_stopped = .ok false ∧
      ((freshLapse 6 5 1).stop >>= LapseParameterClient.is_stopped) =
        .ok true) :=
  ⟨C2_stop_amended.1 (freshShared 6 5 1 0) (by decide),
   C2_stop_amended.2.1 6 5 1 0 (by decide) (by decide),
   C2_stop_amended.2.2.1 6 5 1 0 (by decide) (by decide),
   C2_stop_amended.2.2.2 6 5 1 (by decide) (by decide)⟩

/-- Counterexample to C8 as stated: with the duplicate key list [0, 0],
set writes row 0 twice (last occurrence wins) and the subsequent pull
returns [[2], [2]], not the rows [[1], [2]] that were set. -/
theorem C8_counterexample :
    set_then_pull (mkSharedParameterClient 1 0 0 [[0]]) [0, 0] [[1], [2]] =
      .ok [[2], [2]] ∧
    set_then_pull (mkSharedParameterClient 1 0 0 [[0]]) [0, 0] [[1], [2]] ≠
      .ok [[1], [2]] := by
  exact ⟨by decide, by decide⟩

/-- Claim C8 as amended: for every backend, for any non-empty
duplicate-free list of in-bounds keys and rows of matching count,
set(keys, rows) followed by pull(keys) returns exactly rows.  The
local-memory backend is settled from source; the command-protocol
server and the lapse engine sides are spec-modelled (that code is not
under src). -/
theorem C8_set_pull_roundtrip :
    (∀ (c : SharedParameterClient) (keys : List ℕ) (rows : List Row),
        keys ≠ [] → keys.Nodup → (∀ k ∈ keys, k < c.num_keys) →
        rows.length = keys.length →
        set_then_pull c keys rows = .ok rows) ∧
    (∀ (t : TorchParameterClient) (keys : List ℕ) (rows : List Row),
        keys ≠ [] → keys.Nodup → (∀ k ∈ keys, k < t.serverStore.length) →
        rows.length = keys.length →
        torch_set_then_pull t keys rows = .ok rows) ∧
    (∀ (lc : LapseParameterClient) (keys : List ℕ) (rows : List Row),
        keys ≠ [] → keys.Nodup → (∀ k ∈ keys, k < lc.engine.length) →
        rows.length = keys.length →
        lapse_set_then_pull lc keys rows = .ok rows) := by
  refine ⟨fun c keys rows hne hnd hb hl => ?_,
    fun t keys rows hne hnd hb hl => ?_,
    fun lc keys rows hne hnd hb hl => ?_⟩
  · have hb' : ∀ k ∈ keys, k < c.parameters.length := hb
    have h1 : keys.all (fun k => decide (k < c.parameters.length)) = true :=
      all_lt_of_bounds _ _ hb'
    unfold set_then_pull SharedParameterClient.set
    rw [if_pos h1, except_bind_ok]
    have h2 : keys.all
        (fun k => decide (k < (index_put c.parameters keys rows).length)) =
        true := by
      rw [length_index_put]
      exact h1
    show (if keys.all
        (fun k => decide (k < (index_put c.parameters keys rows).length)) =
          true
      then Except.ok (gather (index_put c.parameters keys rows) keys)
      else Except.error PSErr.invalidKey) = Except.ok rows
    rw [if_pos h2, gather_index_put keys rows c.parameters hnd hb' hl]
  · have h1 : keys.all (fun k => decide (k < t.serverStore.length)) = true :=
      all_lt_of_bounds _ _ hb
    unfold torch_set_then_pull TorchParameterClient.set torch_server_set
    rw [if_pos h1, except_bind_ok, except_pure_bind]
    have h2 : keys.all
        (fun k => decide (k < (index_put t.serverStore keys rows).length)) =
        true := by
      rw [length_index_put]
      exact h1
    show (if keys.all
        (fun k => decide (k < (index_put t.serverStore keys rows).length)) =
          true
      then Except.ok (gather (index_put t.serverStore keys rows) keys)
      else Except.error PSErr.invalidKey) = Except.ok rows
    rw [if_pos h2, gather_index_put keys rows t.serverStore hnd hb hl]
  · have h1 : keys.all (fun k => decide (k < lc.engine.length)) = true :=
      all_lt_of_bounds _ _ hb
    unfold lapse_set_then_pull LapseParameterClient.set lapse_engine_set
    rw [if_pos h1, except_bind_ok, except_pure_bind]
    have h2 : keys.all
        (fun k => decide (k < (index_put lc.engine keys rows).length)) =
        true := by
      rw [length_index_put]
      exact h1
    show (if keys.all
        (fun k => decide (k < (index_put lc.engine keys rows).length)) =
          true
      then Except.ok (gather (index_put lc.engine keys rows) keys)
      else Except.error PSErr.invalidKey) = Except.ok rows
    rw [if_pos h2, gather_index_put keys rows lc.engine hnd hb hl]

/-- Witness for C8 as amended: one-key round trips on all three
backends. -/
theorem C8_set_pull_roundtrip_witness :
    set_then_pull (mkSharedParameterClient 1 0 0 [[0]]) [0] [[7]] =
      .ok [[7]] ∧
    torch_set_then_pull (freshTorch 1 0 1 0) [0] [[7]] = .ok [[7]] ∧
    lapse_set_then_pull (freshLapse 1 0 1) [0] [[7]] = .ok [[7]] :=
  ⟨C8_set_pull_roundtrip.1 (mkSharedParameterClient 1 0 0 [[0]]) [0] [[7]]
      (by decide) (by decide) (by decide) (by decide),
   C8_set_pull_roundtrip.2.1 (freshTorch 1 0 1 0) [0] [[7]]
      (by decide) (by decide) (by decide) (by decide),
   C8_set_pull_roundtrip.2.2 (freshLapse 1 0 1) [0] [[7]]
      (by decide) (by decide) (by decide) (by decide)⟩

/-- Claim C9 as amended: under exact (infinite-precision) accumulation,
on the local-memory backend, for duplicate-free in-bounds keys and row
blocks a and b of matching count, push(keys, a) followed by
push(keys, b) produces the same client state as the single call
push(keys, a + b).  Under the program's float32 arithmetic the law
fails; see the counterexample. -/
theorem C9_push_additive (c : SharedParameterClient) (keys : List ℕ)
    (a b : List Row) (hnd : keys.Nodup) (hbd : ∀ k ∈ keys, k < c.num_keys)
    (ha : a.length = keys.length) (hb : b.length = keys.length) :
    push_then_push c keys a b = c.push keys (List.zipWith addRow a b) := by
  have hb' : ∀ k ∈ keys, k < c.parameters.length := hbd
  have h1 : keys.all (fun k => decide (k < c.parameters.length)) = true :=
    all_lt_of_bounds _ _ hb'
  have hglen : (List.zipWith addRow (gather c.parameters keys) a).length =
      keys.length := by
    rw [List.length_zipWith, length_gather, ha]
    exact min_self _
  have hg : gather (index_put c.parameters keys
      (List.zipWith addRow (gather c.parameters keys) a)) keys =
      List.zipWith addRow (gather c.parameters keys) a :=
    gather_index_put keys _ c.parameters hnd hb' hglen
  simp only [push_then_push, SharedParameterClient.push, h1, if_true,
    except_bind_ok, length_index_put, hg]
  have hcollapse : index_put (index_put c.parameters keys
      (List.zipWith addRow (gather c.parameters keys) a)) keys
      (List.zipWith addRow (List.zipWith addRow (gather c.parameters keys) a)
        b) =
      index_put c.parameters keys
        (List.zipWith addRow
          (List.zipWith addRow (gather c.parameters keys) a) b) :=
    index_put_index_put keys _ _ c.parameters hnd hglen
      (by rw [List.length_zipWith, hglen, hb]; exact min_self _)
  rw [hcollapse, zipWith_assoc3 addRow addRow_assoc]

/-- Witness for C9: a concrete two-key instance. -/
theorem C9_push_additive_witness :
    push_then_push (mkSharedParameterClient 1 0 0 [[0], [0]]) [0, 1]
      [[1], [2]] [[3], [4]] =
    (mkSharedParameterClient 1 0 0 [[0], [0]]).push [0, 1]
      (List.zipWith addRow [[1], [2]] [[3], [4]]) :=
  C9_push_additive (mkSharedParameterClient 1 0 0 [[0], [0]]) [0, 1]
    [[1], [2]] [[3], [4]] (by decide) (by decide) (by decide) (by decide)

theorem round32_one_add_one : round32 ((1 : ℚ) + 1) = 2 := by
  have h1 : ((1 : ℚ) + 1) = 2 := by norm_num
  rw [h1]
  have hn : natLog2 (2 : ℚ).num.natAbs = 1 := by
    rw [show (2 : ℚ).num.natAbs = 2 by norm_num [Rat.num_ofNat]]
    decide
  have hd : natLog2 (2 : ℚ).den = 0 := by
    rw [show (2 : ℚ).den = 1 from Rat.den_ofNat 2]
    decide
  simp only [round32, qlog2]
  rw [abs_of_pos (show (0 : ℚ) < 2 by norm_num)]
  rw [hn, hd]
  norm_num

theorem round32_pow24_add_one : round32 ((16777216 : ℚ) + 1) = 16777216 := by
  have h1 : ((16777216 : ℚ) + 1) = 16777217 := by norm_num
  rw [h1]
  have hn : natLog2 (16777217 : ℚ).num.natAbs = 24 := by
    rw [show (16777217 : ℚ).num.natAbs = 16777217 by norm_num [Rat.num_ofNat]]
    decide
  have hd : natLog2 (16777217 : ℚ).den = 0 := by
    rw [show (16777217 : ℚ).den = 1 from Rat.den_ofNat 16777217]
    decide
  simp only [round32, qlog2]
  rw [abs_of_pos (show (0 : ℚ) < 16777217 by norm_num)]
  rw [hn, hd]
  norm_num

theorem round32_pow24_add_two : round32 ((16777216 : ℚ) + 2) = 16777218 := by
  have h1 : ((16777216 : ℚ) + 2) = 16777218 := by norm_num
  rw [h1]
  have hn : natLog2 (16777218 : ℚ).num.natAbs = 24 := by
    rw [show (16777218 : ℚ).num.natAbs = 16777218 by norm_num [Rat.num_ofNat]]
    decide
  have hd : natLog2 (16777218 : ℚ).den = 0 := by
    rw [show (16777218 : ℚ).den = 1 from Rat.den_ofNat 16777218]
    decide
  simp only [round32, qlog2]
  rw [abs_of_pos (show (0 : ℚ) < 16777218 by norm_num)]
  rw [hn, hd]
  norm_num

/-- Counterexample to C9 as stated: the program accumulates in float32
(dtype at source lines 211 and 301), and binary32 addition is not
associative.  With stored row [2 ^ 24] and a = b = [[1]], push(a) then
push(b) leaves the row at 16777216 (each exact sum 2 ^ 24 + 1 is a tie
rounded back down to even), while the single push(a + b) leaves
16777218 (2 ^ 24 + 2 is exactly representable) — two different store
states from the same start. -/
theorem C9_counterexample :
    push_then_push_f32 (mkSharedParameterClient 1 0 0 [[16777216]]) [0]
      [[1]] [[1]] = .ok (mkSharedParameterClient 1 0 0 [[16777216]]) ∧
    (mkSharedParameterClient 1 0 0 [[16777216]]).push_f32 [0]
      (List.zipWith addRow32 [[1]] [[1]]) =
      .ok (mkSharedParameterClient 1 0 0 [[16777218]]) ∧
    (mkSharedParameterClient 1 0 0 [[16777216]] : SharedParameterClient) ≠
      mkSharedParameterClient 1 0 0 [[16777218]] := by
  have s1 : (mkSharedParameterClient 1 0 0 [[(16777216 : ℚ)]]).push_f32 [0]
      [[1]] =
      .ok (mkSharedParameterClient 1 0 0
        [[round32 ((16777216 : ℚ) + 1)]]) := rfl
  refine ⟨?_, ?_, by decide⟩
  · unfold push_then_push_f32
    rw [s1, except_bind_ok, round32_pow24_add_one, s1, round32_pow24_add_one]
  · have e0 : List.zipWith addRow32 [[(1 : ℚ)]] [[(1 : ℚ)]] = [[(2 : ℚ)]] := by
      rw [show List.zipWith addRow32 [[(1 : ℚ)]] [[(1 : ℚ)]] =
        [[round32 ((1 : ℚ) + 1)]] from rfl, round32_one_add_one]
    rw [e0]
    have s3 : (mkSharedParameterClient 1 0 0 [[(16777216 : ℚ)]]).push_f32 [0]
        [[(2 : ℚ)]] =
        .ok (mkSharedParameterClient 1 0 0
          [[round32 ((16777216 : ℚ) + 2)]]) := rfl
    rw [s3, round32_pow24_add_two]
